import Mathlib

/-!
Verification development for the mify-llm-editor chat frontend
(`webapp/src/components/Chat.tsx`) and, where the backend worker is not
available, the agent-orchestrator loop as described by the design document.

The React component is embedded shallowly: component state becomes a
structure, each handler becomes a pure function from state (plus the
values the handler reads from the environment, such as `Date.now()` and
the HTTP response) to the new state together with the list of HTTP
requests the handler issues.
-/

/-- A chat message as displayed by the webapp (`interface ChatMessage`). -/
structure ChatMessage where
  id : String
  content : String
  isUser : Bool
deriving DecidableEq, Repr

/-- A project record as displayed by the webapp (`interface ChatProject`). -/
structure ChatProject where
  id : String
  name : String
deriving DecidableEq, Repr

/-- The state hooks of the `Chat` component:
`messages`, `input`, `isLoading`, `projects`, `activeProject`,
`isNewProjectModalOpen`. -/
structure ChatState where
  messages : List ChatMessage
  input : String
  isLoading : Bool
  projects : List ChatProject
  activeProject : String
  isNewProjectModalOpen : Bool
deriving DecidableEq, Repr

/-- The HTTP requests the component can issue against the worker API.
`deleteProjects` corresponds to the `DELETE /chat/projects` endpoint of
the API surface; it is listed so that we can state that a handler never
issues it. -/
inductive ApiRequest where
  | postChat (message : String) (projectId : String)
  | getHistory (projectId : String)
  | deleteHistory (projectId : String)
  | getProjects
  | postProjects (name : String)
  | deleteProjects (projectId : String)
deriving DecidableEq, Repr

/-- JavaScript `String.prototype.trim` — strip whitespace from both ends —
written structurally on the character list so that concrete instances
evaluate. -/
def jsTrim (s : String) : String :=
  String.mk (((s.data.dropWhile Char.isWhitespace).reverse.dropWhile
    Char.isWhitespace).reverse)

/-- The early-return guard of `handleSend`:
`if (input.trim() === '' || isLoading || !activeProject) return;`. -/
def sendBlocked (s : ChatState) : Bool :=
  jsTrim s.input == "" || s.isLoading || s.activeProject == ""

/-- The `disabled` attribute of the chat text input:
`disabled={isLoading || !activeProject}`. -/
def inputDisabled (s : ChatState) : Bool :=
  s.isLoading || s.activeProject == ""

/-- The `disabled` attribute of the Send button:
`disabled={isLoading || !activeProject}`. -/
def sendDisabled (s : ChatState) : Bool :=
  s.isLoading || s.activeProject == ""

/-- The synchronous part of `handleSend`, up to the `await axios.post`:
if the guard does not block, it appends the user message (id from
`Date.now()`), clears the input, sets `isLoading`, and issues the single
`POST /chat` request with body `{ message: input, project_id: activeProject }`
(the local `input` binding, captured before `setInput('')`). -/
def handleSendStart (s : ChatState) (now : Nat) : ChatState × List ApiRequest :=
  if sendBlocked s then (s, [])
  else
    ({ s with
        messages := s.messages ++ [⟨toString now, s.input, true⟩],
        input := "",
        isLoading := true },
      [ApiRequest.postChat s.input s.activeProject])

/-- The continuation of `handleSend` when the `POST /chat` promise
resolves: appends the assistant message built from `response.data.message`
(id from a fresh `Date.now() + 1`, `isUser: false`) and then runs the
`finally` block, resetting `isLoading`. -/
def handleSendResolve (s : ChatState) (now2 : Nat) (responseMessage : String) :
    ChatState :=
  { s with
      messages := s.messages ++ [⟨toString (now2 + 1), responseMessage, false⟩],
      isLoading := false }

/-- The continuation of `handleSend` when the `POST /chat` promise
rejects: the `catch` block only logs to the console, so the state change
is the `finally` block resetting `isLoading`. -/
def handleSendReject (s : ChatState) : ChatState :=
  { s with isLoading := false }

/-- One whole run of `handleSend`, with the outcome of the `POST /chat`
request supplied as `resp` (`some m` when the promise resolves with
`response.data.message = m`, `none` when it rejects). Returns the final
state and the requests issued. -/
def handleSend (s : ChatState) (now now2 : Nat) (resp : Option String) :
    ChatState × List ApiRequest :=
  if sendBlocked s then (s, [])
  else
    let started := handleSendStart s now
    match resp with
    | some m => (handleSendResolve started.fst now2 m, started.snd)
    | none => (handleSendReject started.fst, started.snd)

/-- `clearChat` (wired to the header button): returns early when there is
no active project; otherwise issues `DELETE /chat/history?project_id=...`,
empties the local message list, and calls `fetchChatProjects`, which
issues `GET /chat/projects`. The local `projects` list is not modified by
the handler itself. -/
def clearChat (s : ChatState) : ChatState × List ApiRequest :=
  if s.activeProject == "" then (s, [])
  else
    ({ s with messages := [] },
      [ApiRequest.deleteHistory s.activeProject, ApiRequest.getProjects])

/-- The `fetchChatHistory` effect (run whenever `activeProject` changes):
returns early when there is no active project; otherwise issues
`GET /chat/history?project_id=activeProject` and replaces `messages` with
the response data, supplied here as `history`. -/
def fetchChatHistory (s : ChatState) (history : List ChatMessage) :
    ChatState × List ApiRequest :=
  if s.activeProject == "" then (s, [])
  else
    ({ s with messages := history },
      [ApiRequest.getHistory s.activeProject])

/-- `handleNewProject` on the success path: issues
`POST /chat/projects { name: projectName }`; on response `created`
(`{id, name}`) appends it to the project list, makes it the active
project, and closes the modal. -/
def handleNewProject (s : ChatState) (projectName : String)
    (created : ChatProject) : ChatState × List ApiRequest :=
  ({ s with
      projects := s.projects ++ [created],
      activeProject := created.id,
      isNewProjectModalOpen := false },
    [ApiRequest.postProjects projectName])

/-- The Create button of `NewProjectModal`:
`if (projectName.trim()) { onSubmit(projectName); setProjectName(''); }`.
Returns the submitted name (if any) and the new value of the name field. -/
def newProjectCreateClick (projectName : String) : Option String × String :=
  if jsTrim projectName == "" then (none, projectName)
  else (some projectName, "")

/-- Modelled from the spec: the role of a persisted message in the
orchestrator (the llm-worker backend is not among the available sources;
only the design document describes it). -/
inductive Role where
  | user
  | assistant
  | tool
deriving DecidableEq, Repr

/-- Modelled from the spec: a message persisted by the Agent Orchestrator
during a turn. -/
structure OrchMessage where
  role : Role
  content : String
deriving DecidableEq, Repr

/-- Modelled from the spec: the LLM response is a tagged variant —
either a final text message or one or more tool calls (each tool call is
kept opaque here). -/
inductive LLMResponse where
  | finalText (text : String)
  | toolCalls (calls : List String)
deriving DecidableEq, Repr

/-- Modelled from the spec: terminal outcome of a turn, `Done` with the
final assistant text or `Aborted` carrying the explanatory assistant
message. -/
inductive TurnOutcome where
  | done (finalMessage : String)
  | aborted (assistantMessage : String)
deriving DecidableEq, Repr

/-- Modelled from the spec: the assistant message persisted when the
iteration ceiling is reached, explaining that the limit was reached. -/
def abortMessage : String :=
  "Maximum number of tool-dispatch rounds reached; the turn was aborted."

/-- Modelled from the spec: the orchestrator turn loop
`CallingLLM → (DispatchingTools → CallingLLM)* → Done`, with a hard
iteration ceiling. `llm round` is the LLM response at the given round;
`round` counts the tool-dispatch rounds performed so far and `fuel` is
the number of dispatch rounds still allowed. A final-text response ends
the turn (`done`, persisting the assistant text); a tool-call response
with no fuel left forces the terminal `aborted` outcome, persisting the
explanatory assistant message; otherwise the tool calls are dispatched,
each persisted as a `tool` message, and the loop re-enters `CallingLLM`.
Returns (outcome, tool-dispatch rounds performed, messages persisted). -/
def turnLoop (llm : Nat → LLMResponse) : Nat → Nat → TurnOutcome × Nat × List OrchMessage
  | round, fuel =>
    match llm round with
    | LLMResponse.finalText t => (TurnOutcome.done t, round, [⟨Role.assistant, t⟩])
    | LLMResponse.toolCalls cs =>
      match fuel with
      | 0 => (TurnOutcome.aborted abortMessage, round, [⟨Role.assistant, abortMessage⟩])
      | fuel' + 1 =>
        let rest := turnLoop llm (round + 1) fuel'
        (rest.fst, rest.snd.fst, cs.map (fun c => ⟨Role.tool, c⟩) ++ rest.snd.snd)

/-- Modelled from the spec: one whole turn run with the configured
maximum number of tool-dispatch rounds. -/
def runTurn (llm : Nat → LLMResponse) (maxRounds : Nat) :
    TurnOutcome × Nat × List OrchMessage :=
  turnLoop llm 0 maxRounds

/-- A concrete component state used to instantiate theorems: empty
history, input "hello", not loading, one project "p1" active. -/
def sampleState : ChatState :=
  { messages := [], input := "hello", isLoading := false,
    projects := [⟨"p1", "demo"⟩], activeProject := "p1",
    isNewProjectModalOpen := false }

/-- The sample state with a turn in flight (`isLoading` set). -/
def sampleLoadingState : ChatState :=
  { sampleState with isLoading := true }

/-- Helper: in any run of `turnLoop`, the number of tool-dispatch rounds
performed never exceeds the rounds already performed plus the remaining
fuel. -/
theorem turnLoop_rounds_le (llm : Nat → LLMResponse) :
    ∀ fuel round, (turnLoop llm round fuel).snd.fst ≤ round + fuel := by
  intro fuel
  induction fuel with
  | zero =>
    intro round
    unfold turnLoop
    cases llm round <;> simp
  | succ f ih =>
    intro round
    unfold turnLoop
    cases llm round with
    | finalText t => simp
    | toolCalls cs =>
      have h := ih (round + 1)
      simpa using Nat.le_trans h (by omega)

/-- Helper: against an LLM that always answers with tool calls, the
turn loop exhausts its fuel, ends `Aborted`, and the last persisted
message is the explanatory assistant message. -/
theorem turnLoop_always_tool (llm : Nat → LLMResponse)
    (h : ∀ n, ∃ cs, llm n = LLMResponse.toolCalls cs) :
    ∀ fuel round,
      (turnLoop llm round fuel).fst = TurnOutcome.aborted abortMessage ∧
      (turnLoop llm round fuel).snd.fst = round + fuel ∧
      (turnLoop llm round fuel).snd.snd.getLast? =
        some ⟨Role.assistant, abortMessage⟩ := by
  intro fuel
  induction fuel with
  | zero =>
    intro round
    obtain ⟨cs, hcs⟩ := h round
    unfold turnLoop
    rw [hcs]
    simp
  | succ f ih =>
    intro round
    obtain ⟨cs, hcs⟩ := h round
    unfold turnLoop
    rw [hcs]
    obtain ⟨ih1, ih2, ih3⟩ := ih (round + 1)
    refine ⟨ih1, ?_, ?_⟩
    · show (turnLoop llm (round + 1) f).snd.fst = round + (f + 1)
      rw [ih2]
      omega
    · show (cs.map (fun c => (⟨Role.tool, c⟩ : OrchMessage)) ++
          (turnLoop llm (round + 1) f).snd.snd).getLast? =
        some ⟨Role.assistant, abortMessage⟩
      have hne : (turnLoop llm (round + 1) f).snd.snd ≠ [] := by
        intro hnil
        rw [hnil] at ih3
        simp at ih3
      rw [List.getLast?_append_of_ne_nil _ hne]
      exact ih3

/-- C1: when the `handleSend` guard does not block, submitting a chat
message issues exactly one `POST /chat` request with body
`{ message, project_id }`; the turn's final assistant text is taken from
the `message` field of the response and appended to the conversation as a
single non-user message; and that assistant message is appended only
after the request resolves — the synchronous start phase adds no non-user
message. -/
theorem chat_send_single_post_and_assistant_append (s : ChatState)
    (now now2 : Nat) (m : String) (h : sendBlocked s = false) :
    (handleSend s now now2 (some m)).snd =
      [ApiRequest.postChat s.input s.activeProject] ∧
    (handleSend s now now2 (some m)).fst.messages =
      s.messages ++
        [⟨toString now, s.input, true⟩, ⟨toString (now2 + 1), m, false⟩] ∧
    (handleSendStart s now).fst.messages.filter (fun msg => msg.isUser == false) =
      s.messages.filter (fun msg => msg.isUser == false) := by
  refine ⟨?_, ?_, ?_⟩ <;>
    simp [handleSend, handleSendStart, handleSendResolve, h]

/-- C1 witness: the theorem applied to the sample state. -/
theorem chat_send_single_post_witness :
    sendBlocked sampleState = false ∧
    (handleSend sampleState 0 5 (some "ok")).snd =
      [ApiRequest.postChat "hello" "p1"] :=
  ⟨by decide,
    (chat_send_single_post_and_assistant_append sampleState 0 5 "ok" (by decide)).1⟩

/-- C2: while a turn is in flight (`isLoading` is set), a second
submission attempt is a no-op — `handleSendStart` returns without
changing state and without issuing a request — and both the text input
and the Send button are disabled; the disabled state ends only when the
in-flight turn resolves or rejects, both of which reset `isLoading`. -/
theorem inflight_second_send_is_noop (s : ChatState) (now : Nat)
    (h : s.isLoading = true) :
    handleSendStart s now = (s, []) ∧
    inputDisabled s = true ∧
    sendDisabled s = true ∧
    (∀ t : ChatState, ∀ now2 : Nat, ∀ m : String,
      (handleSendResolve t now2 m).isLoading = false) ∧
    (∀ t : ChatState, (handleSendReject t).isLoading = false) := by
  refine ⟨?_, ?_, ?_, fun t now2 m => rfl, fun t => rfl⟩
  · simp [handleSendStart, sendBlocked, h]
  · simp [inputDisabled, h]
  · simp [sendDisabled, h]

/-- C2 witness: the theorem applied to the in-flight sample state. -/
theorem inflight_second_send_noop_witness :
    sampleLoadingState.isLoading = true ∧
    handleSendStart sampleLoadingState 7 = (sampleLoadingState, []) ∧
    sendDisabled sampleLoadingState = true :=
  ⟨rfl, (inflight_second_send_is_noop sampleLoadingState 7 rfl).1,
    (inflight_second_send_is_noop sampleLoadingState 7 rfl).2.2.1⟩

/-- C3: with an active project, `clearChat` issues
`DELETE /chat/history?project_id=...` (followed by the
`GET /chat/projects` refresh), after which the displayed message list is
empty while the project list is unchanged — the project is kept — and no
request to the `DELETE /chat/projects` endpoint is ever issued. -/
theorem clearChat_clears_history_keeps_project (s : ChatState)
    (h : (s.activeProject == "") = false) :
    (clearChat s).fst.messages = [] ∧
    (clearChat s).fst.projects = s.projects ∧
    (clearChat s).snd =
      [ApiRequest.deleteHistory s.activeProject, ApiRequest.getProjects] ∧
    (∀ pid : String, ApiRequest.deleteProjects pid ∉ (clearChat s).snd) := by
  refine ⟨?_, ?_, ?_, ?_⟩ <;> simp [clearChat, h]

/-- C3 witness: the theorem applied to the sample state. -/
theorem clearChat_witness :
    (sampleState.activeProject == "") = false ∧
    (clearChat sampleState).fst.messages = [] ∧
    (clearChat sampleState).snd =
      [ApiRequest.deleteHistory "p1", ApiRequest.getProjects] :=
  ⟨by decide, (clearChat_clears_history_keeps_project sampleState (by decide)).1,
    (clearChat_clears_history_keeps_project sampleState (by decide)).2.2.1⟩

/-- C4 counterexample: in a concrete state (empty history, input
"hello", active project "p1"), when the `POST /chat` request rejects, the
conversation afterwards consists of exactly the user's own message — the
`catch` block only logs to the console — so it contains no non-user
message at all and hence no indication that the turn failed. -/
theorem failed_send_shows_no_failure_indication :
    (handleSend sampleState 0 0 none).fst.messages =
      [⟨"0", "hello", true⟩] ∧
    (handleSend sampleState 0 0 none).fst.messages.filter
      (fun m => m.isUser == false) = [] := by decide

/-- C4 amended: when the `POST /chat` request rejects, the failure is not
retried (exactly the one original request is issued) and no assistant
message is appended; the error is only logged to the console and the
loading flag is reset, so the conversation keeps the user message but
shows no failure indication. -/
theorem failed_send_silent (s : ChatState) (now now2 : Nat)
    (h : sendBlocked s = false) :
    handleSend s now now2 none =
      ({ s with
          messages := s.messages ++ [⟨toString now, s.input, true⟩],
          input := "",
          isLoading := false },
        [ApiRequest.postChat s.input s.activeProject]) := by
  simp [handleSend, handleSendStart, handleSendReject, h]

/-- C4 witness: the amended theorem applied to the sample state. -/
theorem failed_send_silent_witness :
    sendBlocked sampleState = false ∧
    handleSend sampleState 2 3 none =
      ({ sampleState with
          messages := [⟨"2", "hello", true⟩],
          input := "",
          isLoading := false },
        [ApiRequest.postChat "hello" "p1"]) :=
  ⟨by decide, failed_send_silent sampleState 2 3 (by decide)⟩

/-- C5: with an active project, the history fetch issues
`GET /chat/history?project_id=activeProject` and replaces the displayed
message list by exactly the fetched history, every record of which has
the shape `{id, content, isUser}`. -/
theorem history_fetch_replaces_messages (s : ChatState)
    (history : List ChatMessage) (h : (s.activeProject == "") = false) :
    (fetchChatHistory s history).fst.messages = history ∧
    (fetchChatHistory s history).snd =
      [ApiRequest.getHistory s.activeProject] ∧
    (∀ m ∈ (fetchChatHistory s history).fst.messages,
      m = ChatMessage.mk m.id m.content m.isUser) := by
  refine ⟨?_, ?_, fun m _ => rfl⟩ <;> simp [fetchChatHistory, h]

/-- C5 witness: the theorem applied to the sample state and a one-record
history. -/
theorem history_fetch_witness :
    (sampleState.activeProject == "") = false ∧
    (fetchChatHistory sampleState [⟨"1", "hi", true⟩]).fst.messages =
      [⟨"1", "hi", true⟩] :=
  ⟨by decide,
    (history_fetch_replaces_messages sampleState [⟨"1", "hi", true⟩] (by decide)).1⟩

/-- C6: creating a project issues `POST /chat/projects { name }`, appends
the returned `{id, name}` record to the end of the project list
(preserving creation order), and makes the created project the active
one. -/
theorem new_project_appended_and_activated (s : ChatState)
    (projectName : String) (created : ChatProject) :
    (handleNewProject s projectName created).snd =
      [ApiRequest.postProjects projectName] ∧
    (handleNewProject s projectName created).fst.projects =
      s.projects ++ [created] ∧
    (handleNewProject s projectName created).fst.activeProject =
      created.id :=
  ⟨rfl, rfl, rfl⟩

/-- C7: a successful send appends the user message first and the
assistant response directly after it; the previously displayed messages
are preserved unchanged, in order, as the prefix of the new list — so in
the displayed conversation each user message precedes its assistant
reply. -/
theorem send_append_only_order (s : ChatState) (now now2 : Nat) (m : String)
    (h : sendBlocked s = false) :
    (handleSend s now now2 (some m)).fst.messages =
      s.messages ++
        [⟨toString now, s.input, true⟩, ⟨toString (now2 + 1), m, false⟩] ∧
    (handleSend s now now2 (some m)).fst.messages.take s.messages.length =
      s.messages := by
  have hmsg : (handleSend s now now2 (some m)).fst.messages =
      s.messages ++
        [⟨toString now, s.input, true⟩, ⟨toString (now2 + 1), m, false⟩] := by
    simp [handleSend, handleSendStart, handleSendResolve, h]
  refine ⟨hmsg, ?_⟩
  rw [hmsg]
  exact List.take_left _ _

/-- C7 witness: the theorem applied to the sample state. -/
theorem send_append_only_witness :
    sendBlocked sampleState = false ∧
    (handleSend sampleState 0 5 (some "reply")).fst.messages =
      [⟨"0", "hello", true⟩, ⟨"6", "reply", false⟩] :=
  ⟨by decide, (send_append_only_order sampleState 0 5 "reply" (by decide)).1⟩

/-- C8: against an LLM that always returns a tool call, the turn performs
exactly the configured maximum number of tool-dispatch rounds — never
more — then transitions to the terminal `Aborted` outcome with the
explanatory assistant message persisted last; and for every LLM whatever,
the number of dispatch rounds is bounded by the configured maximum, so
every turn terminates. -/
theorem iteration_ceiling_aborts (llm : Nat → LLMResponse) (maxRounds : Nat)
    (h : ∀ n, ∃ cs, llm n = LLMResponse.toolCalls cs) :
    (runTurn llm maxRounds).fst = TurnOutcome.aborted abortMessage ∧
    (runTurn llm maxRounds).snd.fst = maxRounds ∧
    (runTurn llm maxRounds).snd.snd.getLast? =
      some ⟨Role.assistant, abortMessage⟩ ∧
    (∀ llm2 : Nat → LLMResponse,
      (runTurn llm2 maxRounds).snd.fst ≤ maxRounds) := by
  obtain ⟨h1, h2, h3⟩ := turnLoop_always_tool llm h maxRounds 0
  exact ⟨h1, by simpa using h2, h3,
    fun llm2 => by simpa using turnLoop_rounds_le llm2 maxRounds 0⟩

/-- C8 witness: the theorem applied to the constant tool-calling LLM and
ceiling 3. -/
theorem iteration_ceiling_aborts_witness :
    (runTurn (fun _ => LLMResponse.toolCalls ["run_command"]) 3).fst =
      TurnOutcome.aborted abortMessage ∧
    (runTurn (fun _ => LLMResponse.toolCalls ["run_command"]) 3).snd.fst = 3 :=
  ⟨(iteration_ceiling_aborts (fun _ => LLMResponse.toolCalls ["run_command"]) 3
      (fun _ => ⟨["run_command"], rfl⟩)).1,
    (iteration_ceiling_aborts (fun _ => LLMResponse.toolCalls ["run_command"]) 3
      (fun _ => ⟨["run_command"], rfl⟩)).2.1⟩

/-- C9: after every send attempt that passes the guard, whether the
request resolves or rejects, the `finally` block resets the loading flag
to `false`, so the input returns to an accepting state; and on a failed
send the already-appended user message remains while no assistant
message is appended. -/
theorem send_resets_loading_state (s : ChatState) (now now2 : Nat)
    (resp : Option String) (h : sendBlocked s = false) :
    (handleSend s now now2 resp).fst.isLoading = false ∧
    (handleSend s now now2 none).fst.messages =
      s.messages ++ [⟨toString now, s.input, true⟩] ∧
    (handleSend s now now2 none).fst.messages.filter
        (fun m => m.isUser == false) =
      s.messages.filter (fun m => m.isUser == false) := by
  refine ⟨?_, ?_, ?_⟩
  · cases resp <;>
      simp [handleSend, handleSendStart, handleSendResolve, handleSendReject, h]
  · simp [handleSend, handleSendStart, handleSendReject, h]
  · simp [handleSend, handleSendStart, handleSendReject, h]

/-- C9 witness: the theorem applied to the sample state and a rejected
request. -/
theorem send_resets_loading_witness :
    sendBlocked sampleState = false ∧
    (handleSend sampleState 0 0 none).fst.isLoading = false :=
  ⟨by decide, (send_resets_loading_state sampleState 0 0 none (by decide)).1⟩

/-- C10: the Create button of the new-project modal submits only when the
trimmed name is non-empty — an empty or whitespace-only name performs no
submission and leaves the field unchanged — and after a successful
submission the name field is reset to empty (the untrimmed name is what
gets submitted). -/
theorem create_project_requires_nonempty_name (projectName : String) :
    (jsTrim projectName = "" →
      newProjectCreateClick projectName = (none, projectName)) ∧
    (jsTrim projectName ≠ "" →
      newProjectCreateClick projectName = (some projectName, "")) := by
  constructor <;> intro h <;> simp [newProjectCreateClick, h]

/-- C10 witness: the theorem applied to a whitespace-only and a non-empty
name. -/
theorem create_project_requires_nonempty_name_witness :
    newProjectCreateClick "   " = (none, "   ") ∧
    newProjectCreateClick "demo" = (some "demo", "") :=
  ⟨(create_project_requires_nonempty_name "   ").1 (by decide),
    (create_project_requires_nonempty_name "demo").2 (by decide)⟩
